import Mathlib

/-!
# Shallow embedding of `src/src/VncServer.cpp` (vnc-eglfs)

This file models the server-side orchestration layer of the VncEGLFS
repository: the `VncServer` class together with the anonymous-namespace
helpers `TcpServer`, `ClientThread` and the free function `grabWindow`.

Modelling choices:

* Qt object identity is modelled by values: a `ClientThread` held in the
  server's `m_threads` list is identified by a `Worker` record carrying a
  unique allocation id (standing for the heap pointer) and the socket
  descriptor it was created for.  Fresh pointers are modelled by an
  allocation counter in the server state.
* Side effects (logging, signal connection/disconnection, thread
  start/quit/wait/delete, mutex acquire/release, pixel copies, dirty
  notifications) are recorded in an event trace returned next to the new
  state, in the order the C++ statements execute them.
* `qreal devicePixelRatio` is modelled as a natural-number scale factor
  (on EGLFS the ratio is integral; the claims only speak of
  "size × scale factor").
* Pixel contents are modelled by an opaque frame identifier `pixels` on
  the window: `qt_gl_read_framebuffer` copies the producer's current
  identifier into the buffer.
* `QMetaObject::Connection`'s boolean conversion (`m_grabConnectionId`)
  is modelled as a `Bool`: true after a successful `connect`, false
  initially and after `QObject::disconnect` invalidates it.
* `m_window->size()` in `updateFrameBuffer` dereferences the window
  pointer, so that operation returns `Option`: `none` models the null
  dereference that C++ would make undefined.
-/

/-- `QSize`: integral width/height, as in Qt. -/
structure QSize where
  width : Int
  height : Int
deriving DecidableEq, Repr

/-- Scaling a `QSize` by the (integral) device pixel ratio, modelling
`m_window->size() * m_window->devicePixelRatio()`. -/
def QSize.scale (s : QSize) (factor : Nat) : QSize :=
  ⟨s.width * factor, s.height * factor⟩

/-- The `QImage` pixel formats this file touches: `Format_RGB32` (used by
`updateFrameBuffer` for reallocation and by `qt_gl_read_framebuffer` with
`alpha_format = false`) and `Format_Invalid` (a default-constructed
`QImage`). -/
inductive QImageFormat where
  | formatInvalid
  | formatRGB32
deriving DecidableEq, Repr

/-- `QImage`: size, pixel format, and an opaque content identifier that
records which producer frame the pixels were copied from (0 for
uninitialised contents). -/
structure QImage where
  size : QSize
  format : QImageFormat
  contents : Nat
deriving DecidableEq, Repr

/-- A default-constructed `QImage`: null size, invalid format. -/
def QImage.default : QImage :=
  ⟨⟨0, 0⟩, QImageFormat.formatInvalid, 0⟩

/-- `QImage::convertTo(format)`: changes the format in place, keeping
size and contents. -/
def QImage.convertTo (img : QImage) (f : QImageFormat) : QImage :=
  { img with format := f }

/-- The producer window (`QWindow`): current surface size, device pixel
ratio (modelled as a natural-number scale), and the opaque identifier of
the pixels currently readable from its GL framebuffer. -/
structure Window where
  size : QSize
  devicePixelRatio : Nat
  pixels : Nat
deriving DecidableEq, Repr

/-- The external per-connection protocol handler (`VncClient`).
Modelled from the spec: `VncClient` lives in `src/VncClient.cpp`, which
is not part of the sources; the spec describes it only through its
`markDirty` notification entry point ("the signal from capture to a
connection worker that a new frame buffer version is available"), so it
is modelled as a counter of received dirty notifications. -/
structure VncClient where
  markDirtyCalls : Nat
deriving DecidableEq, Repr

/-- Modelled from the spec: receiving a dirty notification on the
handler. -/
def VncClient.markDirty (c : VncClient) : VncClient :=
  { c with markDirtyCalls := c.markDirtyCalls + 1 }

/-- `ClientThread` (anonymous namespace): holds the socket descriptor it
was constructed with and the `m_client` pointer, which is null until
`run()` constructs the `VncClient` on the thread's stack and null again
after `run()` returns. -/
structure ClientThread where
  m_client : Option VncClient
  m_socketDescriptor : Int
deriving DecidableEq, Repr

/-- `ClientThread::ClientThread(fd, server)`: `m_client` starts null. -/
def ClientThread.construct (fd : Int) : ClientThread :=
  { m_client := Option.none, m_socketDescriptor := fd }

/-- The beginning of `ClientThread::run()`: the `VncClient` is created
and `m_client` set to it. -/
def ClientThread.runBegin (ct : ClientThread) : ClientThread :=
  { ct with m_client := some { markDirtyCalls := 0 } }

/-- The end of `ClientThread::run()`: `m_client` is reset to null before
the stack `VncClient` is destroyed. -/
def ClientThread.runEnd (ct : ClientThread) : ClientThread :=
  { ct with m_client := Option.none }

/-- `ClientThread::markDirty()`:
`if ( m_client ) m_client->markDirty();` -/
def ClientThread.markDirty (ct : ClientThread) : ClientThread :=
  match ct.m_client with
  | Option.none => ct
  | some c => { ct with m_client := some c.markDirty }

/-- A connection worker as seen from the server: the identity of its
`ClientThread` object (`id` stands for the heap pointer, unique per
allocation) and the socket descriptor it was spawned for. -/
structure Worker where
  id : Nat
  fd : Int
deriving DecidableEq, Repr

/-- The kind of Qt signal/slot connection requested; `updateFrameBuffer`
is attached to `frameSwapped` with `Qt::DirectConnection` (synchronous,
non-queued). -/
inductive ConnectionKind where
  | direct
  | queued
deriving DecidableEq, Repr

/-- The possible results of `sender()` inside a slot: the signalling
object is a `ClientThread`, the `TcpServer`, or there is no sender (the
slot was invoked directly). -/
inductive Sender where
  | thread (w : Worker)
  | tcpServer (port : Int)
  | nullSender
deriving DecidableEq, Repr

/-- Observable effects of the server code, recorded in source order. -/
inductive Event where
  | listenAttempt (port : Int)
  | logServerCreated (port : Int)
  | subscribeFrameSwapped (kind : ConnectionKind)
  | requestUpdate
  | logClientAttached (port : Int) (count : Nat)
  | registerFinished (threadId : Nat)
  | threadStart (threadId : Nat)
  | unsubscribeFrameSwapped
  | threadQuit (threadId : Nat)
  | threadWait (threadId : Nat) (ms : Nat)
  | threadDelete (threadId : Nat)
  | logClientDetached (count : Nat)
  | lockAcquire
  | bufferRealloc (size : QSize)
  | pixelCopy
  | bufferRead
  | lockRelease
  | markDirty (threadId : Nat)
deriving DecidableEq, Repr

/-- Is the event one of the `qInfo` log lines? -/
def Event.isLog : Event → Bool
  | Event.logServerCreated _ => true
  | Event.logClientAttached _ _ => true
  | Event.logClientDetached _ => true
  | _ => false

/-- The `VncServer` state: the window pointer (null only after the
destructor has run), the `QMetaObject::Connection m_grabConnectionId`
(as its boolean validity), the `m_threads` list, the shared
`m_frameBuffer`, whether `tcpServer->listen` succeeded, and the
allocation counter producing fresh `ClientThread` identities. -/
structure ServerState where
  m_window : Option Window
  m_grabConnectionId : Bool
  m_threads : List Worker
  m_frameBuffer : QImage
  listening : Bool
  nextThreadId : Nat
deriving DecidableEq, Repr

namespace VncServer

/-- `VncServer::VncServer(port, window)`: asserts the window is non-null,
creates the `TcpServer`, connects `connectionRequested` to `addClient`,
and calls `listen`; only on success does it log
`"VncServer created on port %d"`.  `listenOk` is the environment's answer
to `tcpServer->listen(QHostAddress::Any, port)`. -/
def construct (port : Int) (w : Window) (listenOk : Bool) :
    ServerState × List Event :=
  ({ m_window := some w
     m_grabConnectionId := false
     m_threads := []
     m_frameBuffer := QImage.default
     listening := listenOk
     nextThreadId := 0 },
   Event.listenAttempt port ::
     (if listenOk then [Event.logServerCreated port] else []))

/-- `VncServer::addClient(qintptr fd)`: allocates a new `ClientThread`,
appends it to `m_threads`; if the window is non-null and
`m_grabConnectionId` is invalid, connects `frameSwapped` to
`updateFrameBuffer` with `Qt::DirectConnection` and invokes `update` on
the window; logs the attach when the sender is the `TcpServer`; connects
the thread's `finished` signal to `removeClient`; starts the thread. -/
def addClient (s : ServerState) (fd : Int) (sender : Sender) :
    ServerState × List Event :=
  let thread : Worker := ⟨s.nextThreadId, fd⟩
  let threads := s.m_threads ++ [thread]
  let subscribeNow := s.m_window.isSome && !s.m_grabConnectionId
  let grabId := s.m_grabConnectionId || subscribeNow
  let subEvents :=
    if subscribeNow then
      [Event.subscribeFrameSwapped ConnectionKind.direct, Event.requestUpdate]
    else []
  let logEvents :=
    match sender with
    | Sender.tcpServer port => [Event.logClientAttached port threads.length]
    | _ => []
  ({ s with
      m_threads := threads
      m_grabConnectionId := grabId
      nextThreadId := s.nextThreadId + 1 },
   subEvents ++ logEvents ++
     [Event.registerFinished thread.id, Event.threadStart thread.id])

/-- `VncServer::removeClient()`: if `sender()` casts to a `QThread`,
removes it from `m_threads` (`removeOne`), disconnects the grab
connection when the list became empty and the connection is valid, quits
the thread, waits up to 100 ms, deletes it and logs the new count;
otherwise does nothing. -/
def removeClient (s : ServerState) (sender : Sender) :
    ServerState × List Event :=
  match sender with
  | Sender.thread t =>
    let threads := s.m_threads.erase t
    let doDisconnect := threads.isEmpty && s.m_grabConnectionId
    let grabId := if doDisconnect then false else s.m_grabConnectionId
    ({ s with m_threads := threads, m_grabConnectionId := grabId },
     (if doDisconnect then [Event.unsubscribeFrameSwapped] else []) ++
       [Event.threadQuit t.id, Event.threadWait t.id 100,
        Event.threadDelete t.id, Event.logClientDetached threads.length])
  | _ => (s, [])

/-- `grabWindow(QImage&)` (the compiled `#else` branch): remembers the
buffer's format, reads the GL framebuffer at the buffer's current size
with `alpha_format = false` (yielding `Format_RGB32` pixels of the
producer's current frame), and converts back to the remembered format. -/
def grabWindow (w : Window) (frameBuffer : QImage) : QImage :=
  let format := frameBuffer.format
  let grabbed : QImage :=
    ⟨frameBuffer.size, QImageFormat.formatRGB32, w.pixels⟩
  grabbed.convertTo format

/-- `VncServer::updateFrameBuffer()`: under `m_frameBufferMutex`,
computes `m_window->size() * m_window->devicePixelRatio()`, reallocates
`m_frameBuffer` as a `Format_RGB32` image of that size when it differs
from the buffer's current size, and grabs the window into the buffer;
after the locker's scope ends, calls `markDirty()` on every thread in
`m_threads`.  Returns `none` when `m_window` is null (the C++ would
dereference a null pointer). -/
def updateFrameBuffer (s : ServerState) :
    Option (ServerState × List Event) :=
  match s.m_window with
  | Option.none => Option.none
  | some w =>
    let size := w.size.scale w.devicePixelRatio
    let reallocated :=
      if size ≠ s.m_frameBuffer.size then
        (QImage.mk size QImageFormat.formatRGB32 0,
          [Event.bufferRealloc size])
      else (s.m_frameBuffer, [])
    let fb := grabWindow w reallocated.1
    some ({ s with m_frameBuffer := fb },
      Event.lockAcquire :: reallocated.2 ++
        [Event.pixelCopy, Event.lockRelease] ++
        s.m_threads.map (fun t => Event.markDirty t.id))

/-- `VncServer::frameBuffer()`: under `m_frameBufferMutex`, copies
`m_frameBuffer` into a local and returns it by value. -/
def frameBuffer (s : ServerState) : QImage × List Event :=
  (s.m_frameBuffer, [Event.lockAcquire, Event.bufferRead, Event.lockRelease])

end VncServer

/-- A lifecycle operation on the connection set, as triggered by the
`connectionRequested` and `finished` signals. -/
inductive Op where
  | add (fd : Int) (sender : Sender)
  | remove (sender : Sender)
deriving DecidableEq, Repr

/-- State transition of one operation (discarding the event trace). -/
def applyOp (s : ServerState) : Op → ServerState
  | Op.add fd sender => (VncServer.addClient s fd sender).1
  | Op.remove sender => (VncServer.removeClient s sender).1

/-- Running a sequence of add/remove operations. -/
def runOps (s : ServerState) (ops : List Op) : ServerState :=
  ops.foldl applyOp s

/-- The number of `addClient` invocations in an operation sequence. -/
def numAdds : List Op → Nat
  | [] => 0
  | Op.add _ _ :: rest => numAdds rest + 1
  | Op.remove _ :: rest => numAdds rest

/-- The number of `removeClient` invocations whose sender is a thread
currently present in the connection set at the moment of the call. -/
def numMatched : ServerState → List Op → Nat
  | _, [] => 0
  | s, op :: rest =>
    (match op with
      | Op.remove (Sender.thread t) => if t ∈ s.m_threads then 1 else 0
      | _ => 0) + numMatched (applyOp s op) rest

/-- The render-complete subscription is active exactly when the
connection set is non-empty. -/
def subscriptionInv (s : ServerState) : Prop :=
  s.m_grabConnectionId = !s.m_threads.isEmpty

instance (s : ServerState) : Decidable (subscriptionInv s) := by
  unfold subscriptionInv; infer_instance

/-- Allocation soundness: the thread list has no duplicates and every
listed identity was produced by the allocator. -/
def allocInv (s : ServerState) : Prop :=
  s.m_threads.Nodup ∧ ∀ t ∈ s.m_threads, t.id < s.nextThreadId

/-! ## Helper lemmas -/

theorem runOps_nil (s : ServerState) : runOps s [] = s := rfl

theorem runOps_cons (s : ServerState) (op : Op) (ops : List Op) :
    runOps s (op :: ops) = runOps (applyOp s op) ops := rfl

theorem applyOp_window (s : ServerState) (op : Op) :
    (applyOp s op).m_window = s.m_window := by
  cases op with
  | add fd sender => rfl
  | remove sender => cases sender <;> rfl

theorem runOps_window (s : ServerState) (ops : List Op) :
    (runOps s ops).m_window = s.m_window := by
  induction ops generalizing s with
  | nil => rfl
  | cons op rest ih =>
    rw [runOps_cons, ih, applyOp_window]

theorem subscriptionInv_addClient (s : ServerState) (fd : Int) (sender : Sender)
    (hw : s.m_window.isSome = true) (_h : subscriptionInv s) :
    subscriptionInv (VncServer.addClient s fd sender).1 := by
  unfold subscriptionInv VncServer.addClient
  simp [hw]

theorem subscriptionInv_removeClient (s : ServerState) (sender : Sender)
    (h : subscriptionInv s) :
    subscriptionInv (VncServer.removeClient s sender).1 := by
  cases sender with
  | thread t =>
    unfold subscriptionInv VncServer.removeClient
    unfold subscriptionInv at h
    by_cases he : (s.m_threads.erase t).isEmpty = true
    · simp [he]
    · have hne : s.m_threads ≠ [] := by
        intro hnil
        rw [hnil] at he
        simp [List.erase] at he
      have : s.m_threads.isEmpty = false := by
        cases hl : s.m_threads with
        | nil => exact absurd hl hne
        | cons a l => rfl
      rw [this] at h
      simp [he, h]
  | tcpServer p => exact h
  | nullSender => exact h

theorem subscriptionInv_applyOp (s : ServerState) (op : Op)
    (hw : s.m_window.isSome = true) (h : subscriptionInv s) :
    subscriptionInv (applyOp s op) := by
  cases op with
  | add fd sender => exact subscriptionInv_addClient s fd sender hw h
  | remove sender => exact subscriptionInv_removeClient s sender h

theorem subscriptionInv_runOps (s : ServerState) (ops : List Op)
    (hw : s.m_window.isSome = true) (h : subscriptionInv s) :
    subscriptionInv (runOps s ops) := by
  induction ops generalizing s with
  | nil => exact h
  | cons op rest ih =>
    rw [runOps_cons]
    exact ih (applyOp s op)
      (by rw [applyOp_window]; exact hw)
      (subscriptionInv_applyOp s op hw h)

theorem allocInv_applyOp (s : ServerState) (op : Op) (h : allocInv s) :
    allocInv (applyOp s op) := by
  obtain ⟨hnd, hbound⟩ := h
  cases op with
  | add fd sender =>
    refine ⟨?_, ?_⟩
    · show (s.m_threads ++ [Worker.mk s.nextThreadId fd]).Nodup
      rw [List.nodup_append]
      refine ⟨hnd, List.nodup_singleton _, ?_⟩
      intro t ht ht'
      have := hbound t ht
      have : t.id < s.nextThreadId := this
      rw [List.mem_singleton] at ht'
      rw [ht'] at this
      exact absurd this (lt_irrefl _)
    · intro t ht
      show t.id < s.nextThreadId + 1
      rcases List.mem_append.mp ht with hmem | hmem
      · exact Nat.lt_succ_of_lt (hbound t hmem)
      · rw [List.mem_singleton] at hmem
        rw [hmem]
        exact Nat.lt_succ_self _
  | remove sender =>
    cases sender with
    | thread t =>
      refine ⟨hnd.erase t, ?_⟩
      intro u hu
      exact hbound u (List.mem_of_mem_erase hu)
    | tcpServer p => exact ⟨hnd, hbound⟩
    | nullSender => exact ⟨hnd, hbound⟩

theorem allocInv_runOps (s : ServerState) (ops : List Op) (h : allocInv s) :
    allocInv (runOps s ops) := by
  induction ops generalizing s with
  | nil => exact h
  | cons op rest ih =>
    rw [runOps_cons]
    exact ih (applyOp s op) (allocInv_applyOp s op h)

theorem numMatched_cons (s : ServerState) (op : Op) (ops : List Op) :
    numMatched s (op :: ops) =
      (match op with
        | Op.remove (Sender.thread t) => if t ∈ s.m_threads then 1 else 0
        | _ => 0) + numMatched (applyOp s op) ops := rfl

/-- Balance equation: final set size plus matched removals equals initial
set size plus additions. -/
theorem runOps_length_balance (ops : List Op) (s : ServerState) :
    (runOps s ops).m_threads.length + numMatched s ops
      = s.m_threads.length + numAdds ops := by
  induction ops generalizing s with
  | nil => simp [runOps_nil, numMatched, numAdds]
  | cons op rest ih =>
    rw [runOps_cons, numMatched_cons]
    cases op with
    | add fd sender =>
      have hlen : (applyOp s (Op.add fd sender)).m_threads.length
          = s.m_threads.length + 1 := by
        show (s.m_threads ++ [Worker.mk s.nextThreadId fd]).length = _
        simp
      have := ih (applyOp s (Op.add fd sender))
      rw [hlen] at this
      simp only [numAdds]
      omega
    | remove sender =>
      cases sender with
      | thread t =>
        by_cases hmem : t ∈ s.m_threads
        · have hlen : (applyOp s (Op.remove (Sender.thread t))).m_threads.length
              = s.m_threads.length - 1 := by
            show (s.m_threads.erase t).length = _
            exact List.length_erase_of_mem hmem
          have hpos : 0 < s.m_threads.length := List.length_pos.mpr (by
            intro hnil; rw [hnil] at hmem; exact absurd hmem (List.not_mem_nil t))
          have := ih (applyOp s (Op.remove (Sender.thread t)))
          rw [hlen] at this
          simp only [numAdds, hmem, if_pos]
          omega
        · have hlen : (applyOp s (Op.remove (Sender.thread t))).m_threads.length
              = s.m_threads.length := by
            show (s.m_threads.erase t).length = _
            rw [List.erase_of_not_mem hmem]
          have := ih (applyOp s (Op.remove (Sender.thread t)))
          rw [hlen] at this
          simp only [numAdds, hmem, if_neg, not_false_iff]
          omega
      | tcpServer p =>
        have happ : applyOp s (Op.remove (Sender.tcpServer p)) = s := rfl
        rw [happ]
        have := ih s
        simp only [numAdds]
        omega
      | nullSender =>
        have happ : applyOp s (Op.remove Sender.nullSender) = s := rfl
        rw [happ]
        have := ih s
        simp only [numAdds]
        omega

/-! ## Sample states for concrete witnesses -/

/-- A sample producer window: 800×600 surface, scale factor 1, current
frame identifier 42. -/
def sampleWindow : Window := ⟨⟨800, 600⟩, 1, 42⟩

/-- The server state right after a successful construction on port 5900. -/
def sampleState : ServerState := (VncServer.construct 5900 sampleWindow true).1

/-- `sampleState` after one client attached for descriptor 7. -/
def oneClientState : ServerState :=
  (VncServer.addClient sampleState 7 (Sender.tcpServer 5900)).1

/-! ## Claims -/

/-- Claim C1: after every sequence of addConnection/removeConnection
operations starting from a freshly constructed server, the
render-complete subscription (`m_grabConnectionId`) is active if and only
if the connection set (`m_threads`) is non-empty. -/
theorem c1_subscription_iff_connections (port : Int) (w : Window) (ok : Bool)
    (ops : List Op) :
    (runOps (VncServer.construct port w ok).1 ops).m_grabConnectionId = true
      ↔ (runOps (VncServer.construct port w ok).1 ops).m_threads ≠ [] := by
  have h0 : subscriptionInv (VncServer.construct port w ok).1 := rfl
  have hw : (VncServer.construct port w ok).1.m_window.isSome = true := rfl
  have h := subscriptionInv_runOps (VncServer.construct port w ok).1 ops hw h0
  unfold subscriptionInv at h
  rw [h]
  cases hl : (runOps (VncServer.construct port w ok).1 ops).m_threads with
  | nil => simp
  | cons a l => simp

/-- Claim C9: after any sequence of add/remove operations from a fresh
server, the connection set size equals the number of adds minus the
number of removes that matched a present worker; it is zero when every
added connection has been removed; and the set never holds the same
worker twice. -/
theorem c9_connection_count (port : Int) (w : Window) (ok : Bool)
    (ops : List Op) :
    (runOps (VncServer.construct port w ok).1 ops).m_threads.length
        = numAdds ops - numMatched (VncServer.construct port w ok).1 ops
      ∧ numMatched (VncServer.construct port w ok).1 ops ≤ numAdds ops
      ∧ (numMatched (VncServer.construct port w ok).1 ops = numAdds ops →
          (runOps (VncServer.construct port w ok).1 ops).m_threads = [])
      ∧ (runOps (VncServer.construct port w ok).1 ops).m_threads.Nodup := by
  have hbal := runOps_length_balance ops (VncServer.construct port w ok).1
  have hinit : (VncServer.construct port w ok).1.m_threads.length = 0 := rfl
  rw [hinit] at hbal
  have halloc := allocInv_runOps (VncServer.construct port w ok).1 ops
    ⟨List.nodup_nil, fun t ht => absurd ht (List.not_mem_nil t)⟩
  refine ⟨by omega, by omega, ?_, halloc.1⟩
  intro heq
  have hz : (runOps (VncServer.construct port w ok).1 ops).m_threads.length = 0 := by
    omega
  exact List.length_eq_zero.mp hz

/-- Concrete run for claim C9: one add followed by its matching remove
leaves an empty set. -/
theorem c9_witness :
    (runOps (VncServer.construct 5900 sampleWindow true).1
        [Op.add 7 (Sender.tcpServer 5900), Op.remove (Sender.thread ⟨0, 7⟩)]).m_threads.length
        = numAdds [Op.add 7 (Sender.tcpServer 5900), Op.remove (Sender.thread ⟨0, 7⟩)]
          - numMatched (VncServer.construct 5900 sampleWindow true).1
              [Op.add 7 (Sender.tcpServer 5900), Op.remove (Sender.thread ⟨0, 7⟩)]
      ∧ numMatched (VncServer.construct 5900 sampleWindow true).1
            [Op.add 7 (Sender.tcpServer 5900), Op.remove (Sender.thread ⟨0, 7⟩)]
          ≤ numAdds [Op.add 7 (Sender.tcpServer 5900), Op.remove (Sender.thread ⟨0, 7⟩)]
      ∧ (numMatched (VncServer.construct 5900 sampleWindow true).1
            [Op.add 7 (Sender.tcpServer 5900), Op.remove (Sender.thread ⟨0, 7⟩)]
          = numAdds [Op.add 7 (Sender.tcpServer 5900), Op.remove (Sender.thread ⟨0, 7⟩)] →
          (runOps (VncServer.construct 5900 sampleWindow true).1
            [Op.add 7 (Sender.tcpServer 5900), Op.remove (Sender.thread ⟨0, 7⟩)]).m_threads = [])
      ∧ (runOps (VncServer.construct 5900 sampleWindow true).1
          [Op.add 7 (Sender.tcpServer 5900), Op.remove (Sender.thread ⟨0, 7⟩)]).m_threads.Nodup :=
  c9_connection_count 5900 sampleWindow true
    [Op.add 7 (Sender.tcpServer 5900), Op.remove (Sender.thread ⟨0, 7⟩)]

/-- Claim C10: invoking `removeClient` when `sender()` is absent or is
not a worker thread leaves the whole server state unchanged and produces
no effect at all (no unsubscribe, no quit, no wait, no delete, no log). -/
theorem c10_removeClient_no_sender_frame (s : ServerState) (p : Int) :
    VncServer.removeClient s Sender.nullSender = (s, [])
      ∧ VncServer.removeClient s (Sender.tcpServer p) = (s, []) :=
  ⟨rfl, rfl⟩

/-- Claim C6: `frameBuffer()` returns the value of the shared buffer at
the time of the call, and the read happens between acquiring and
releasing the buffer's mutual-exclusion lock, so the returned value is a
copy taken under the lock, not a live reference observed mid-write. -/
theorem c6_frameBuffer_locked_copy (s : ServerState) :
    (VncServer.frameBuffer s).1 = s.m_frameBuffer
      ∧ ∃ pre post, (VncServer.frameBuffer s).2 = pre ++ Event.bufferRead :: post
          ∧ Event.lockAcquire ∈ pre
          ∧ Event.lockRelease ∉ pre
          ∧ Event.lockRelease ∈ post := by
  refine ⟨rfl, [Event.lockAcquire], [Event.lockRelease], rfl, ?_, ?_, ?_⟩
  · simp
  · simp
  · simp

/-- Claim C7: `ClientThread::markDirty()` is a no-op (state unchanged,
total, never failing) while `m_client` is null — that is, before `run()`
has constructed the handler and after `run()` has torn it down — and
forwards to the handler's `markDirty` when the handler exists. -/
theorem c7_markDirty_safe (fd : Int) (ct : ClientThread) :
    ClientThread.markDirty (ClientThread.construct fd) = ClientThread.construct fd
      ∧ ClientThread.markDirty (ClientThread.runEnd ct) = ClientThread.runEnd ct
      ∧ (ct.m_client = Option.none → ClientThread.markDirty ct = ct)
      ∧ ∀ c, ct.m_client = some c →
          (ClientThread.markDirty ct).m_client = some (VncClient.markDirty c)
            ∧ (ClientThread.markDirty ct).m_socketDescriptor = ct.m_socketDescriptor := by
  refine ⟨rfl, rfl, ?_, ?_⟩
  · intro h
    unfold ClientThread.markDirty
    rw [h]
  · intro c h
    unfold ClientThread.markDirty
    rw [h]
    exact ⟨rfl, rfl⟩

/-- Concrete run for claim C7: `markDirty` before `run()` leaves the
fresh thread unchanged; after `runBegin` it forwards to the handler. -/
theorem c7_witness :
    ClientThread.markDirty (ClientThread.construct 3) = ClientThread.construct 3
      ∧ (ClientThread.markDirty
            (ClientThread.runBegin (ClientThread.construct 3))).m_client
          = some (VncClient.markDirty ⟨0⟩) :=
  ⟨(c7_markDirty_safe 3 (ClientThread.construct 3)).1,
   ((c7_markDirty_safe 3 (ClientThread.runBegin (ClientThread.construct 3))).2.2.2
      ⟨0⟩ rfl).1⟩

/-- Counterexample to claim C8: constructing a server on port 5900 while
`listen` fails produces no log line at all — the failure is reported
zero times, not exactly once. -/
theorem c8_counterexample :
    (VncServer.construct 5900 sampleWindow false).2.filter Event.isLog = []
      ∧ ((VncServer.construct 5900 sampleWindow false).2.filter Event.isLog).length ≠ 1 := by
  decide

/-- Claim C8 (amended): when `listen` fails at construction, nothing is
logged (the failure is silently ignored), exactly one listen attempt is
made (no retry), construction still completes (no exception crosses the
boundary) and the instance stays inert: not listening, no connections,
no render-complete subscription.  When `listen` succeeds, readiness is
logged exactly once. -/
theorem c8_construct_reporting (port : Int) (w : Window) :
    (VncServer.construct port w false).2.filter Event.isLog = []
      ∧ (VncServer.construct port w false).2.count (Event.listenAttempt port) = 1
      ∧ (VncServer.construct port w false).1.listening = false
      ∧ (VncServer.construct port w false).1.m_threads = []
      ∧ (VncServer.construct port w false).1.m_grabConnectionId = false
      ∧ (VncServer.construct port w true).2.filter Event.isLog
          = [Event.logServerCreated port]
      ∧ (VncServer.construct port w true).2.count (Event.listenAttempt port) = 1 := by
  refine ⟨?_, ?_, rfl, rfl, rfl, ?_, ?_⟩
  · simp [VncServer.construct, Event.isLog]
  · simp [VncServer.construct]
  · simp [VncServer.construct, Event.isLog]
  · simp [VncServer.construct]

/-- Claim C2: `addClient(fd)` appends a freshly allocated worker for
that descriptor to the connection set and registers the
`finished → removeClient` completion callback; and — given the
subscription invariant — it subscribes `updateFrameBuffer` to
`frameSwapped` with a `Qt::DirectConnection` (synchronous, non-queued)
and requests one render pass (`update`) exactly when the set was empty
before the call. -/
theorem c2_addClient_spec (s : ServerState) (fd : Int) (sender : Sender)
    (hw : s.m_window.isSome = true) (hinv : subscriptionInv s) :
    (VncServer.addClient s fd sender).1.m_threads
        = s.m_threads ++ [Worker.mk s.nextThreadId fd]
      ∧ Event.registerFinished s.nextThreadId ∈ (VncServer.addClient s fd sender).2
      ∧ (s.m_threads = [] ↔
          Event.subscribeFrameSwapped ConnectionKind.direct
              ∈ (VncServer.addClient s fd sender).2
            ∧ Event.requestUpdate ∈ (VncServer.addClient s fd sender).2) := by
  have hg : s.m_grabConnectionId = !s.m_threads.isEmpty := hinv
  cases hl : s.m_threads with
  | nil =>
    rw [hl] at hg
    simp only [List.isEmpty_nil, Bool.not_true] at hg
    cases sender <;> simp [VncServer.addClient, hw, hg, hl]
  | cons a l =>
    rw [hl] at hg
    simp only [List.isEmpty_cons, Bool.not_false] at hg
    cases sender <;> simp [VncServer.addClient, hw, hg, hl]

/-- Concrete run for claim C2: the first client attaches to the freshly
constructed sample server. -/
theorem c2_witness :
    (VncServer.addClient sampleState 7 (Sender.tcpServer 5900)).1.m_threads
        = sampleState.m_threads ++ [Worker.mk sampleState.nextThreadId 7]
      ∧ Event.registerFinished sampleState.nextThreadId
          ∈ (VncServer.addClient sampleState 7 (Sender.tcpServer 5900)).2
      ∧ (sampleState.m_threads = [] ↔
          Event.subscribeFrameSwapped ConnectionKind.direct
              ∈ (VncServer.addClient sampleState 7 (Sender.tcpServer 5900)).2
            ∧ Event.requestUpdate
                ∈ (VncServer.addClient sampleState 7 (Sender.tcpServer 5900)).2) :=
  c2_addClient_spec sampleState 7 (Sender.tcpServer 5900) (by decide) (by decide)

/-- Claim C3: `removeClient` invoked by a worker present in the set
removes that worker, unsubscribes from `frameSwapped` exactly when the
set becomes empty as a result, quits the worker's thread, waits on it
with a 100 ms bound, deletes it, and logs the new connection count. -/
theorem c3_removeClient_spec (s : ServerState) (t : Worker)
    (hmem : t ∈ s.m_threads) (hnodup : s.m_threads.Nodup)
    (hinv : subscriptionInv s) :
    (VncServer.removeClient s (Sender.thread t)).1.m_threads = s.m_threads.erase t
      ∧ t ∉ (VncServer.removeClient s (Sender.thread t)).1.m_threads
      ∧ (Event.unsubscribeFrameSwapped ∈ (VncServer.removeClient s (Sender.thread t)).2
          ↔ (VncServer.removeClient s (Sender.thread t)).1.m_threads = [])
      ∧ Event.threadQuit t.id ∈ (VncServer.removeClient s (Sender.thread t)).2
      ∧ Event.threadWait t.id 100 ∈ (VncServer.removeClient s (Sender.thread t)).2
      ∧ Event.threadDelete t.id ∈ (VncServer.removeClient s (Sender.thread t)).2
      ∧ Event.logClientDetached (s.m_threads.erase t).length
          ∈ (VncServer.removeClient s (Sender.thread t)).2 := by
  have hg : s.m_grabConnectionId = true := by
    unfold subscriptionInv at hinv
    cases hl : s.m_threads with
    | nil => rw [hl] at hmem; exact absurd hmem (List.not_mem_nil t)
    | cons a l => rw [hl] at hinv; simpa using hinv
  have hnot : t ∉ s.m_threads.erase t := by
    intro hcontra
    exact absurd rfl ((List.Nodup.mem_erase_iff hnodup).mp hcontra).1
  by_cases he : (s.m_threads.erase t).isEmpty = true
  · have hnil : s.m_threads.erase t = [] := by
      cases h2 : s.m_threads.erase t with
      | nil => rfl
      | cons a l => rw [h2] at he; exact absurd he (by simp)
    simp [VncServer.removeClient, hg, hnil]
  · have hne : s.m_threads.erase t ≠ [] := by
      intro h2; rw [h2] at he; exact he rfl
    have he' : (s.m_threads.erase t).isEmpty = false := by
      cases h2 : s.m_threads.erase t with
      | nil => exact absurd h2 hne
      | cons a l => rfl
    simp [VncServer.removeClient, hg, he', hnot, hne]

/-- Concrete run for claim C3: removing the only attached client of the
sample server empties the set and cancels the subscription. -/
theorem c3_witness :
    (VncServer.removeClient oneClientState (Sender.thread ⟨0, 7⟩)).1.m_threads
        = oneClientState.m_threads.erase ⟨0, 7⟩
      ∧ (⟨0, 7⟩ : Worker) ∉ (VncServer.removeClient oneClientState (Sender.thread ⟨0, 7⟩)).1.m_threads
      ∧ (Event.unsubscribeFrameSwapped
            ∈ (VncServer.removeClient oneClientState (Sender.thread ⟨0, 7⟩)).2
          ↔ (VncServer.removeClient oneClientState (Sender.thread ⟨0, 7⟩)).1.m_threads = [])
      ∧ Event.threadQuit 0 ∈ (VncServer.removeClient oneClientState (Sender.thread ⟨0, 7⟩)).2
      ∧ Event.threadWait 0 100 ∈ (VncServer.removeClient oneClientState (Sender.thread ⟨0, 7⟩)).2
      ∧ Event.threadDelete 0 ∈ (VncServer.removeClient oneClientState (Sender.thread ⟨0, 7⟩)).2
      ∧ Event.logClientDetached (oneClientState.m_threads.erase ⟨0, 7⟩).length
          ∈ (VncServer.removeClient oneClientState (Sender.thread ⟨0, 7⟩)).2 :=
  c3_removeClient_spec oneClientState ⟨0, 7⟩ (by decide) (by decide) (by decide)

/-- Claim C4: a completed `updateFrameBuffer()` leaves the buffer with
dimensions equal to the window's surface size times its device pixel
ratio and with the producer's current pixels copied in, and it
reallocates the buffer exactly when the computed size differs from the
buffer's current size. -/
theorem c4_capture_size (s : ServerState) (w : Window)
    (hw : s.m_window = some w) :
    ∃ s2 tr, VncServer.updateFrameBuffer s = some (s2, tr)
      ∧ s2.m_frameBuffer.size = w.size.scale w.devicePixelRatio
      ∧ s2.m_frameBuffer.contents = w.pixels
      ∧ (Event.bufferRealloc (w.size.scale w.devicePixelRatio) ∈ tr
          ↔ w.size.scale w.devicePixelRatio ≠ s.m_frameBuffer.size) := by
  by_cases hsz : w.size.scale w.devicePixelRatio = s.m_frameBuffer.size
  · refine ⟨{ s with m_frameBuffer :=
                QImage.mk s.m_frameBuffer.size s.m_frameBuffer.format w.pixels },
      Event.lockAcquire :: Event.pixelCopy :: Event.lockRelease ::
        s.m_threads.map (fun t => Event.markDirty t.id), ?_, hsz.symm, rfl, ?_⟩
    · simp [VncServer.updateFrameBuffer, hw, hsz, VncServer.grabWindow,
        QImage.convertTo]
    · constructor
      · intro hmem
        simp [List.mem_map] at hmem
      · intro hne
        exact absurd hsz hne
  · refine ⟨{ s with m_frameBuffer :=
                QImage.mk (w.size.scale w.devicePixelRatio) QImageFormat.formatRGB32 w.pixels },
      Event.lockAcquire :: Event.bufferRealloc (w.size.scale w.devicePixelRatio) ::
        Event.pixelCopy :: Event.lockRelease ::
        s.m_threads.map (fun t => Event.markDirty t.id), ?_, rfl, rfl, ?_⟩
    · simp [VncServer.updateFrameBuffer, hw, hsz, VncServer.grabWindow,
        QImage.convertTo]
    · constructor
      · intro _
        exact hsz
      · intro _
        simp

/-- Concrete run for claim C4: the first capture on the sample server
reallocates the null buffer to 800×600 and copies frame 42 in. -/
theorem c4_witness :
    ∃ s2 tr, VncServer.updateFrameBuffer sampleState = some (s2, tr)
      ∧ s2.m_frameBuffer.size = sampleWindow.size.scale sampleWindow.devicePixelRatio
      ∧ s2.m_frameBuffer.contents = sampleWindow.pixels
      ∧ (Event.bufferRealloc (sampleWindow.size.scale sampleWindow.devicePixelRatio) ∈ tr
          ↔ sampleWindow.size.scale sampleWindow.devicePixelRatio
              ≠ sampleState.m_frameBuffer.size) :=
  c4_capture_size sampleState sampleWindow rfl

/-- Claim C5: in every completed `updateFrameBuffer()`, the pixel copy
happens strictly before the lock release, all `markDirty` notifications
come only after the release, exactly the workers registered in the set
are notified (in order, and no other), and an empty set receives no
notification. -/
theorem c5_notify_after_release (s : ServerState) (w : Window)
    (hw : s.m_window = some w) :
    ∃ s2 tr pre, VncServer.updateFrameBuffer s = some (s2, tr)
      ∧ tr = pre ++ [Event.pixelCopy, Event.lockRelease]
            ++ s.m_threads.map (fun t => Event.markDirty t.id)
      ∧ Event.lockRelease ∉ pre
      ∧ (∀ i, Event.markDirty i ∉ pre)
      ∧ (s.m_threads = [] → ∀ i, Event.markDirty i ∉ tr) := by
  by_cases hsz : w.size.scale w.devicePixelRatio = s.m_frameBuffer.size
  · refine ⟨{ s with m_frameBuffer :=
                QImage.mk s.m_frameBuffer.size s.m_frameBuffer.format w.pixels },
      Event.lockAcquire :: Event.pixelCopy :: Event.lockRelease ::
        s.m_threads.map (fun t => Event.markDirty t.id),
      [Event.lockAcquire], ?_, ?_, ?_, ?_, ?_⟩
    · simp [VncServer.updateFrameBuffer, hw, hsz, VncServer.grabWindow,
        QImage.convertTo]
    · simp
    · simp
    · intro i
      simp
    · intro h i
      rw [h]
      simp
  · refine ⟨{ s with m_frameBuffer :=
                QImage.mk (w.size.scale w.devicePixelRatio) QImageFormat.formatRGB32 w.pixels },
      Event.lockAcquire :: Event.bufferRealloc (w.size.scale w.devicePixelRatio) ::
        Event.pixelCopy :: Event.lockRelease ::
        s.m_threads.map (fun t => Event.markDirty t.id),
      [Event.lockAcquire, Event.bufferRealloc (w.size.scale w.devicePixelRatio)],
      ?_, ?_, ?_, ?_, ?_⟩
    · simp [VncServer.updateFrameBuffer, hw, hsz, VncServer.grabWindow,
        QImage.convertTo]
    · simp
    · simp
    · intro i
      simp
    · intro h i
      rw [h]
      simp

/-- Concrete run for claim C5: the first capture on the sample server
(empty connection set) releases the lock after the copy and notifies
nobody. -/
theorem c5_witness :
    ∃ s2 tr pre, VncServer.updateFrameBuffer sampleState = some (s2, tr)
      ∧ tr = pre ++ [Event.pixelCopy, Event.lockRelease]
            ++ sampleState.m_threads.map (fun t => Event.markDirty t.id)
      ∧ Event.lockRelease ∉ pre
      ∧ (∀ i, Event.markDirty i ∉ pre)
      ∧ (sampleState.m_threads = [] → ∀ i, Event.markDirty i ∉ tr) :=
  c5_notify_after_release sampleState sampleWindow rfl
